import Mathlib

/-!
Verification development for the tenant-provisioning CLI
(`src/cli/create-tenant.ts`) and the lazy connection-pool module.

The TypeScript source is shallowly embedded: the prompt collector, the
credential generator (`genApiKey`, `sha256Hex`), the transactional writer and
the result reporter become pure Lean functions over an explicit environment
(stdin lines, random bytes, a per-query fault oracle, the generated tenant id,
the database clock) and an explicit three-table database state.  Machine words
are `Nat` reduced modulo `2 ^ 32` where the hash needs wrapping arithmetic.
-/

namespace GhlMcp

/-! ## JavaScript string trimming (`String.prototype.trim`, used by `ask`) -/

/-- The whitespace characters recognised by JavaScript `trim` that can occur in
terminal input: space, tab, line feed, carriage return, vertical tab, form
feed, no-break space. -/
def jsIsWhitespace (c : Char) : Bool :=
  c == ' ' || c == '\t' || c == '\n' || c == '\r' ||
  c == '\x0b' || c == '\x0c' || c == Char.ofNat 160

/-- Embedding of JavaScript `s.trim()`: drop leading and trailing whitespace. -/
def jsTrim (s : String) : String :=
  String.mk (((s.data.dropWhile jsIsWhitespace).reverse.dropWhile jsIsWhitespace).reverse)

/-! ## Hexadecimal encoding (`Buffer.toString("hex")` and digest rendering) -/

/-- The lowercase hexadecimal digit for a nibble. -/
def hexChar (n : Nat) : Char :=
  if n < 10 then Char.ofNat (48 + n) else Char.ofNat (87 + n)

/-- The two hexadecimal characters of one byte. -/
def byteHexChars (b : Nat) : List Char :=
  [hexChar (b / 16 % 16), hexChar (b % 16)]

/-- Lowercase hexadecimal encoding of a byte sequence
(`Buffer.toString("hex")`). -/
def bytesToHex (bs : List Nat) : String :=
  String.mk (bs.map byteHexChars).flatten

/-- `genApiKey` from the source: `crypto.randomBytes(24).toString("hex")`.
The random bytes are an input of the embedding; the function performs the
hexadecimal encoding. -/
def genApiKey (bytes : List Nat) : String :=
  bytesToHex bytes

/-! ## SHA-256 (`crypto.createHash("sha256")`), over `Nat` modulo `2 ^ 32` -/

/-- Truncation to a 32-bit word. -/
def w32 (x : Nat) : Nat := x % 4294967296

/-- Right rotation of a 32-bit word by `n`. -/
def rotr32 (n x : Nat) : Nat := w32 ((x >>> n) ||| (x <<< (32 - n)))

/-- SHA-256 `Σ₀`. -/
def bsig0 (x : Nat) : Nat := rotr32 2 x ^^^ rotr32 13 x ^^^ rotr32 22 x

/-- SHA-256 `Σ₁`. -/
def bsig1 (x : Nat) : Nat := rotr32 6 x ^^^ rotr32 11 x ^^^ rotr32 25 x

/-- SHA-256 `σ₀`. -/
def ssig0 (x : Nat) : Nat := rotr32 7 x ^^^ rotr32 18 x ^^^ (x >>> 3)

/-- SHA-256 `σ₁`. -/
def ssig1 (x : Nat) : Nat := rotr32 17 x ^^^ rotr32 19 x ^^^ (x >>> 10)

/-- SHA-256 `Ch(x,y,z)`; `¬x` is xor against the 32-bit mask. -/
def ch32 (x y z : Nat) : Nat := (x &&& y) ^^^ ((x ^^^ 4294967295) &&& z)

/-- SHA-256 `Maj(x,y,z)`. -/
def maj32 (x y z : Nat) : Nat := (x &&& y) ^^^ (x &&& z) ^^^ (y &&& z)

/-- The 64 SHA-256 round constants. -/
def sha256K : List Nat :=
  [1116352408, 1899447441, 3049323471, 3921009573,
   961987163, 1508970993, 2453635748, 2870763221,
   3624381080, 310598401, 607225278, 1426881987,
   1925078388, 2162078206, 2614888103, 3248222580,
   3835390401, 4022224774, 264347078, 604807628,
   770255983, 1249150122, 1555081692, 1996064986,
   2554220882, 2821834349, 2952996808, 3210313671,
   3336571891, 3584528711, 113926993, 338241895,
   666307205, 773529912, 1294757372, 1396182291,
   1695183700, 1986661051, 2177026350, 2456956037,
   2730485921, 2820302411, 3259730800, 3345764771,
   3516065817, 3600352804, 4094571909, 275423344,
   430227734, 506948616, 659060556, 883997877,
   958139571, 1322822218, 1537002063, 1747873779,
   1955562222, 2024104815, 2227730452, 2361852424,
   2428436474, 2756734187, 3204031479, 3329325298]

/-- The running SHA-256 state: eight 32-bit words. -/
structure Hash8 where
  a : Nat
  b : Nat
  c : Nat
  d : Nat
  e : Nat
  f : Nat
  g : Nat
  h : Nat
  deriving Repr, DecidableEq

/-- The SHA-256 initial hash value. -/
def sha256H0 : Hash8 :=
  ⟨1779033703, 3144134277, 1013904242, 2773480762,
   1359893119, 2600822924, 528734635, 1541459225⟩

/-- FIPS 180-4 padding: `0x80`, zeros to 56 mod 64, then the bit length as
eight big-endian bytes. -/
def padMessage (msg : List Nat) : List Nat :=
  let bitLen := 8 * msg.length
  let zeros := (56 + 64 - (msg.length + 1) % 64) % 64
  msg ++ [0x80] ++ List.replicate zeros 0 ++
    (List.range 8).map (fun i => bitLen >>> (8 * (7 - i)) % 256)

/-- Split a byte list into 64-byte blocks (fuel-driven, the fuel is the
length, so every byte is consumed). -/
def chunks64Aux : Nat → List Nat → List (List Nat)
  | 0, _ => []
  | _, [] => []
  | fuel + 1, l => l.take 64 :: chunks64Aux fuel (l.drop 64)

/-- The 64-byte blocks of a padded message. -/
def chunks64 (l : List Nat) : List (List Nat) := chunks64Aux l.length l

/-- Big-endian 32-bit words of a block, four bytes at a time. -/
def toWords : List Nat → List Nat
  | b0 :: b1 :: b2 :: b3 :: rest =>
      (b0 * 16777216 + b1 * 65536 + b2 * 256 + b3) :: toWords rest
  | _ => []

/-- The 64-entry message schedule extending the 16 block words. -/
def scheduleW (ws : List Nat) : Array Nat :=
  (List.range 48).foldl
    (fun arr i =>
      let t := i + 16
      arr.push (w32 (ssig1 (arr.getD (t - 2) 0) + arr.getD (t - 7) 0 +
        ssig0 (arr.getD (t - 15) 0) + arr.getD (t - 16) 0)))
    ws.toArray

/-- One SHA-256 compression round with round constant `k` and schedule word
`w`. -/
def sha256Round (k w : Nat) (s : Hash8) : Hash8 :=
  let t1 := w32 (s.h + bsig1 s.e + ch32 s.e s.f s.g + k + w)
  let t2 := w32 (bsig0 s.a + maj32 s.a s.b s.c)
  ⟨w32 (t1 + t2), s.a, s.b, s.c, w32 (s.d + t1), s.e, s.f, s.g⟩

/-- Compression of one 64-byte block into the running state. -/
def compressBlock (s : Hash8) (block : List Nat) : Hash8 :=
  let w := scheduleW (toWords block)
  let t := (List.range 64).foldl
    (fun st i => sha256Round (sha256K.getD i 0) (w.getD i 0) st) s
  ⟨w32 (s.a + t.a), w32 (s.b + t.b), w32 (s.c + t.c), w32 (s.d + t.d),
   w32 (s.e + t.e), w32 (s.f + t.f), w32 (s.g + t.g), w32 (s.h + t.h)⟩

/-- The eight digest words of a byte message. -/
def sha256Words (msg : List Nat) : List Nat :=
  let fin := (chunks64 (padMessage msg)).foldl compressBlock sha256H0
  [fin.a, fin.b, fin.c, fin.d, fin.e, fin.f, fin.g, fin.h]

/-- The eight hexadecimal characters of a 32-bit word, high nibble first. -/
def wordHexChars (x : Nat) : List Char :=
  [hexChar (x >>> 28 % 16), hexChar (x >>> 24 % 16), hexChar (x >>> 20 % 16),
   hexChar (x >>> 16 % 16), hexChar (x >>> 12 % 16), hexChar (x >>> 8 % 16),
   hexChar (x >>> 4 % 16), hexChar (x % 16)]

/-- UTF-8 bytes of one character (the `update(s, "utf8")` encoding step). -/
def utf8CharBytes (c : Char) : List Nat :=
  let n := c.toNat
  if n < 128 then [n]
  else if n < 2048 then
    [192 ||| (n >>> 6), 128 ||| (n % 64)]
  else if n < 65536 then
    [224 ||| (n >>> 12), 128 ||| (n >>> 6 % 64), 128 ||| (n % 64)]
  else
    [240 ||| (n >>> 18), 128 ||| (n >>> 12 % 64), 128 ||| (n >>> 6 % 64),
     128 ||| (n % 64)]

/-- UTF-8 byte sequence of a string. -/
def utf8Bytes (s : String) : List Nat :=
  (s.data.map utf8CharBytes).flatten

/-- `sha256Hex` from the source:
`crypto.createHash("sha256").update(s, "utf8").digest("hex")`. -/
def sha256Hex (s : String) : String :=
  String.mk ((sha256Words (utf8Bytes s)).map wordHexChars).flatten


/-! ## The data model: the three tables the script writes -/

/-- A row of `tenants`: `insert into tenants (name) values ($1) returning id`. -/
structure TenantRow where
  id : Nat
  name : String
  deriving Repr, DecidableEq

/-- A row of `api_keys`:
`insert into api_keys (tenant_id, key_hash, label)`. -/
structure ApiKeyRow where
  tenantId : Nat
  keyHash : String
  label : String
  deriving Repr, DecidableEq

/-- A row of `tenant_secrets` (`tenant_id` is unique in the schema). -/
structure SecretRow where
  tenantId : Nat
  ghlApiKey : String
  ghlLocationId : String
  ghlBaseUrl : String
  ghlVersion : String
  updatedAt : Nat
  deriving Repr, DecidableEq

/-- The visible database state: the three tables the script touches. -/
structure Db where
  tenants : List TenantRow
  apiKeys : List ApiKeyRow
  tenantSecrets : List SecretRow
  deriving Repr, DecidableEq

/-- The `on conflict (tenant_id) do update` upsert into `tenant_secrets`:
if a row with the same tenant id exists it is overwritten wholesale
(all four GHL columns and `updated_at = now()` come from the excluded row),
otherwise the row is inserted. -/
def upsertSecret (db : Db) (row : SecretRow) : Db :=
  if db.tenantSecrets.any (fun r => r.tenantId == row.tenantId) then
    { db with tenantSecrets :=
        db.tenantSecrets.map (fun r => if r.tenantId == row.tenantId then row else r) }
  else
    { db with tenantSecrets := db.tenantSecrets ++ [row] }

/-! ## The prompt collector -/

/-- `ask`: one `readline` round trip.  The raw line is taken from the front of
the pending stdin lines and trimmed (`resolve(ans.trim())`). -/
def ask (stdin : List String) : String × List String :=
  (jsTrim (stdin.headD ""), stdin.tail)

/-- The collected answers, with defaults already substituted. -/
structure Answers where
  name : String
  label : String
  ghlApiKey : String
  ghlLocationId : String
  ghlBaseUrl : String
  ghlVersion : String
  deriving Repr, DecidableEq

/-- An error thrown inside the `try` block: a validation `Error` with its
message, or a rejected query carrying its position in the issued-query order
and the driver's message. -/
inductive RunErr where
  | validation (msg : String)
  | query (idx : Nat) (msg : String)
  deriving Repr, DecidableEq

/-- The message the catch handler prints (`err?.message ?? err`). -/
def RunErr.message : RunErr → String
  | .validation m => m
  | .query _ m => m

/-- The prompt phase of `main`, lines 44-56 of the source: six questions in
fixed order; a blank name throws before anything else is asked; `x || dflt`
on a trimmed answer substitutes the default exactly when the answer is empty;
the two GHL prompts have no default. -/
def collect (stdin : List String) : Except RunErr Answers :=
  let (name, s1) := ask stdin
  if name = "" then
    .error (.validation "Tenant name is required.")
  else
    let (l, s2) := ask s1
    let label := if l = "" then "primary" else l
    let (ghlApiKey, s3) := ask s2
    let (ghlLocationId, s4) := ask s3
    let (b, s5) := ask s4
    let ghlBaseUrl := if b = "" then "https://services.leadconnectorhq.com" else b
    let (v, _) := ask s5
    let ghlVersion := if v = "" then "2021-07-28" else v
    .ok ⟨name, label, ghlApiKey, ghlLocationId, ghlBaseUrl, ghlVersion⟩

/-! ## The transactional writer and the whole run -/

/-- Everything outside the program that one run consumes: the environment
variables, the stdin lines, the 24 random bytes, the tenant id the database
generates for `returning id`, a fault oracle telling which issued query
rejects (indexed by the position in the issued-query order) together with the
driver messages, whether the `rollback` query itself would reject, and the
database clock `now()`. -/
structure Env where
  databaseUrl : Option String
  stdin : List String
  randomBytes : List Nat
  tenantIdGen : Nat
  queryFails : Nat → Bool
  queryErrMsg : Nat → String
  rollbackFails : Bool
  now : Nat

/-- The successful outcome of the `try` block: the database as committed plus
the values the reporter prints. -/
structure TryOk where
  db : Db
  tenantId : Nat
  answers : Answers
  rawKey : String
  keyHash : String
  deriving Repr, DecidableEq

/-- The `try` block of `main`, lines 43-117: collect the answers (a blank
name throws), generate the key and its hash, then issue `begin`, the two
inserts, optionally the validation check and the upsert, and `commit`.
Each query is appended to the trace when issued; a rejected query throws with
its index.  Inserts act on a working copy that becomes visible only through
`commit`; every thrown error leaves the committed state untouched. -/
def tryMain (env : Env) (db0 : Db) : List String × Except RunErr TryOk :=
  match collect env.stdin with
  | .error e => ([], .error e)
  | .ok a =>
    let rawKey := genApiKey env.randomBytes
    let keyHash := sha256Hex rawKey
    let t0 := ["begin"]
    if env.queryFails 0 then (t0, .error (.query 0 (env.queryErrMsg 0))) else
    let t1 := t0 ++ ["insert tenants"]
    if env.queryFails 1 then (t1, .error (.query 1 (env.queryErrMsg 1))) else
    let tenantId := env.tenantIdGen
    let db1 := { db0 with tenants := db0.tenants ++ [TenantRow.mk tenantId a.name] }
    let t2 := t1 ++ ["insert api_keys"]
    if env.queryFails 2 then (t2, .error (.query 2 (env.queryErrMsg 2))) else
    let db2 := { db1 with apiKeys := db1.apiKeys ++ [ApiKeyRow.mk tenantId keyHash a.label] }
    if a.ghlApiKey ≠ "" ∨ a.ghlLocationId ≠ "" then
      if a.ghlApiKey = "" ∨ a.ghlLocationId = "" then
        (t2, .error (.validation
          "If you provide GHL credentials, you must provide BOTH API key and Location ID."))
      else
        let t3 := t2 ++ ["upsert tenant_secrets"]
        if env.queryFails 3 then (t3, .error (.query 3 (env.queryErrMsg 3))) else
        let db3 := upsertSecret db2
          (SecretRow.mk tenantId a.ghlApiKey a.ghlLocationId a.ghlBaseUrl a.ghlVersion env.now)
        let t4 := t3 ++ ["commit"]
        if env.queryFails 4 then (t4, .error (.query 4 (env.queryErrMsg 4))) else
        (t4, .ok ⟨db3, tenantId, a, rawKey, keyHash⟩)
    else
      let t3 := t2 ++ ["commit"]
      if env.queryFails 3 then (t3, .error (.query 3 (env.queryErrMsg 3))) else
      (t3, .ok ⟨db2, tenantId, a, rawKey, keyHash⟩)

/-- The observable outcome of one process run. -/
structure RunResult where
  db : Db
  exitCode : Nat
  poolConstructed : Bool
  poolEnded : Bool
  rollbackAttempted : Bool
  rollbackSucceeded : Bool
  errorMsg : Option String
  printedRawKey : Option String
  printedSkipNote : Bool
  trace : List String
  deriving Repr, DecidableEq

/-- `main`.  Without `DATABASE_URL` it prints the error and exits 1 before a
pool exists.  Otherwise the pool is constructed and the `try` block runs.  On
success the `finally` block awaits `pool.end()` and the process exits 0.  On
any thrown error the catch handler attempts `rollback` (swallowing that
query's own failure), prints the original error's message, and calls
`process.exit(1)` — which terminates the process at once, so the `finally`
block never runs and `pool.end()` is not invoked on this path. -/
def main (env : Env) (db0 : Db) : RunResult :=
  match env.databaseUrl with
  | none =>
    { db := db0, exitCode := 1, poolConstructed := false, poolEnded := false,
      rollbackAttempted := false, rollbackSucceeded := false,
      errorMsg := some "Missing DATABASE_URL env var",
      printedRawKey := none, printedSkipNote := false, trace := [] }
  | some _ =>
    match tryMain env db0 with
    | (tr, .ok r) =>
      { db := r.db, exitCode := 0, poolConstructed := true, poolEnded := true,
        rollbackAttempted := false, rollbackSucceeded := false,
        errorMsg := none, printedRawKey := some r.rawKey,
        printedSkipNote := r.answers.ghlApiKey == "" || r.answers.ghlLocationId == "",
        trace := tr }
    | (tr, .error e) =>
      { db := db0, exitCode := 1, poolConstructed := true, poolEnded := false,
        rollbackAttempted := true, rollbackSucceeded := !env.rollbackFails,
        errorMsg := some e.message,
        printedRawKey := none, printedSkipNote := false,
        trace := tr ++ ["rollback"] }

/-! ## The lazy pool module (`src/db.ts`, the unnamed second file) -/

/-- The configuration captured by `new Pool({...})` in the pool module. -/
structure PoolCfg where
  connectionString : Option String
  sslRejectUnauthorized : Option Bool
  deriving Repr, DecidableEq

/-- One constructed `pg.Pool` instance; `instanceId` counts which `new Pool`
evaluation produced it, so that distinct constructions are distinct values. -/
structure PgPoolInst where
  cfg : PoolCfg
  instanceId : Nat
  deriving Repr, DecidableEq

/-- The process environment the pool module reads. -/
structure NodeEnv where
  databaseUrl : Option String
  nodeEnv : Option String
  deriving Repr, DecidableEq

/-- The module-level mutable state: `let pool: pg.Pool | null = null`, plus an
instrumentation counter of how many times `new Pool` has run. -/
structure DbModuleState where
  pool : Option PgPoolInst
  constructedCount : Nat
  deriving Repr, DecidableEq

/-- The state of the pool module at process start. -/
def dbModuleInit : DbModuleState := ⟨none, 0⟩

/-- The `db()` accessor: construct the pool on first call, then return the
memoized instance. -/
def db (env : NodeEnv) (s : DbModuleState) : PgPoolInst × DbModuleState :=
  match s.pool with
  | some p => (p, s)
  | none =>
    let p : PgPoolInst :=
      ⟨⟨env.databaseUrl,
        if env.nodeEnv == some "production" then some false else none⟩,
       s.constructedCount⟩
    (p, ⟨some p, s.constructedCount + 1⟩)

/-- The module state after `n` successive calls of `db()`. -/
def dbCalls (env : NodeEnv) : Nat → DbModuleState → DbModuleState
  | 0, s => s
  | n + 1, s => dbCalls env n (db env s).2


/-! ## Derived predicates and helper lemmas -/

/-- Every issued query succeeds (the fault oracle never fires). -/
def noFaults (env : Env) : Prop := ∀ i, env.queryFails i = false

/-- The collected GHL credentials are both blank or both provided. -/
def ghlConsistent (a : Answers) : Prop :=
  (a.ghlApiKey = "" ∧ a.ghlLocationId = "") ∨ (a.ghlApiKey ≠ "" ∧ a.ghlLocationId ≠ "")

theorem main_fail_frame (env : Env) (db0 : Db)
    (h : (main env db0).exitCode ≠ 0) : (main env db0).db = db0 := by
  unfold main at *
  cases henv : env.databaseUrl with
  | none => simp [henv]
  | some u =>
    rcases htm : tryMain env db0 with ⟨tr, r⟩
    cases r with
    | ok v => simp [henv, htm] at h
    | error e => simp [henv, htm]

theorem flatten_byteHex_length (bs : List Nat) :
    ((bs.map byteHexChars).flatten).length = 2 * bs.length := by
  induction bs with
  | nil => rfl
  | cons b t ih => simp [byteHexChars] at ih ⊢; omega

theorem genApiKey_length (bs : List Nat) : (genApiKey bs).length = 2 * bs.length := by
  show ((bs.map byteHexChars).flatten).length = 2 * bs.length
  exact flatten_byteHex_length bs

theorem sha256Hex_length (s : String) : (sha256Hex s).length = 64 := by
  show (((sha256Words (utf8Bytes s)).map wordHexChars).flatten).length = 64
  unfold sha256Words
  simp [wordHexChars]

theorem jsTrim_of_all_whitespace (s : String) (h : s.data.all jsIsWhitespace = true) :
    jsTrim s = "" := by
  unfold jsTrim
  have h1 : s.data.dropWhile jsIsWhitespace = [] := by
    rw [List.dropWhile_eq_nil_iff]
    intro x hx
    exact List.all_eq_true.mp h x hx
  rw [h1]
  rfl

theorem tryMain_rollback_irrel (env : Env) (b : Bool) (db0 : Db) :
    tryMain { env with rollbackFails := b } db0 = tryMain env db0 := by
  cases env
  rfl


/-- The full observable outcome of a failing run: the original error's
message is reported, the database is untouched, the pool is not ended, and
only the recorded rollback outcome depends on the rollback fault. -/
theorem main_error_shape (env : Env) (db0 : Db) (u : String)
    (tr : List String) (e : RunErr)
    (hurl : env.databaseUrl = some u)
    (htry : tryMain env db0 = (tr, .error e)) :
    main env db0 = RunResult.mk db0 1 true false true (!env.rollbackFails)
      (some e.message) none false (tr ++ ["rollback"]) := by
  simp [main, hurl, htry]

/-- The full observable outcome of a fault-free run that skips the GHL
credentials. -/
theorem main_success_noGhl (env : Env) (db0 : Db) (u : String) (a : Answers)
    (hurl : env.databaseUrl = some u)
    (hcol : collect env.stdin = .ok a)
    (hA : a.ghlApiKey = "") (hB : a.ghlLocationId = "")
    (hnf : noFaults env) :
    main env db0 = RunResult.mk
      (Db.mk (db0.tenants ++ [TenantRow.mk env.tenantIdGen a.name])
        (db0.apiKeys ++
          [ApiKeyRow.mk env.tenantIdGen (sha256Hex (genApiKey env.randomBytes)) a.label])
        db0.tenantSecrets)
      0 true true false false none (some (genApiKey env.randomBytes)) true
      ["begin", "insert tenants", "insert api_keys", "commit"] := by
  simp [main, tryMain, hurl, hcol, hA, hB, hnf 0, hnf 1, hnf 2, hnf 3]

/-- The full observable outcome of a fault-free run that supplies both GHL
credentials. -/
theorem main_success_ghl (env : Env) (db0 : Db) (u : String) (a : Answers)
    (hurl : env.databaseUrl = some u)
    (hcol : collect env.stdin = .ok a)
    (hA : a.ghlApiKey ≠ "") (hB : a.ghlLocationId ≠ "")
    (hnf : noFaults env) :
    main env db0 = RunResult.mk
      (upsertSecret
        (Db.mk (db0.tenants ++ [TenantRow.mk env.tenantIdGen a.name])
          (db0.apiKeys ++
            [ApiKeyRow.mk env.tenantIdGen (sha256Hex (genApiKey env.randomBytes)) a.label])
          db0.tenantSecrets)
        (SecretRow.mk env.tenantIdGen a.ghlApiKey a.ghlLocationId a.ghlBaseUrl
          a.ghlVersion env.now))
      0 true true false false none (some (genApiKey env.randomBytes)) false
      ["begin", "insert tenants", "insert api_keys", "upsert tenant_secrets", "commit"] := by
  simp [main, tryMain, hurl, hcol, hA, hB, hnf 0, hnf 1, hnf 2, hnf 3, hnf 4]

theorem dbCalls_stable (env : NodeEnv) (m : Nat) (p : PgPoolInst) (c : Nat) :
    dbCalls env m (DbModuleState.mk (some p) c) = DbModuleState.mk (some p) c := by
  induction m with
  | zero => rfl
  | succ k ih => simpa [dbCalls, db] using ih

/-! ## Concrete runs used by the witnesses and the C3 evaluation -/

/-- An empty database. -/
def dbEmpty : Db := ⟨[], [], []⟩

/-- A fault-free environment whose operator enters a tenant name and accepts
every default (no GHL credentials). -/
def envOk : Env :=
  { databaseUrl := some "postgres://db", stdin := ["Acme", "", "", "", "", ""],
    randomBytes := List.replicate 24 0, tenantIdGen := 1,
    queryFails := fun _ => false, queryErrMsg := fun _ => "connection lost",
    rollbackFails := false, now := 5 }

/-- The answers `collect` produces for `envOk`. -/
def aOk : Answers :=
  ⟨"Acme", "primary", "", "", "https://services.leadconnectorhq.com", "2021-07-28"⟩

/-- A fault-free environment supplying both GHL credentials. -/
def envBoth : Env :=
  { databaseUrl := some "postgres://db", stdin := ["Acme", "", "KEY", "LOC", "", ""],
    randomBytes := List.replicate 24 0, tenantIdGen := 1,
    queryFails := fun _ => false, queryErrMsg := fun _ => "connection lost",
    rollbackFails := false, now := 5 }

/-- The answers `collect` produces for `envBoth`. -/
def aBoth : Answers :=
  ⟨"Acme", "primary", "KEY", "LOC", "https://services.leadconnectorhq.com", "2021-07-28"⟩

/-- A fault-free environment supplying only the GHL API key. -/
def envOneGhl : Env :=
  { databaseUrl := some "postgres://db", stdin := ["Acme", "", "KEY", "", "", ""],
    randomBytes := List.replicate 24 0, tenantIdGen := 1,
    queryFails := fun _ => false, queryErrMsg := fun _ => "connection lost",
    rollbackFails := false, now := 5 }

/-- The answers `collect` produces for `envOneGhl`. -/
def aOneGhl : Answers :=
  ⟨"Acme", "primary", "KEY", "", "https://services.leadconnectorhq.com", "2021-07-28"⟩

/-- An environment whose operator submits a blank tenant name. -/
def envBlankName : Env :=
  { databaseUrl := some "postgres://db", stdin := [""],
    randomBytes := List.replicate 24 0, tenantIdGen := 1,
    queryFails := fun _ => false, queryErrMsg := fun _ => "connection lost",
    rollbackFails := false, now := 5 }

/-- A database that already holds a `tenant_secrets` row for tenant 1. -/
def dbWithSecret : Db :=
  ⟨[⟨1, "Old"⟩], [⟨1, "oldhash", "primary"⟩],
   [⟨1, "oldkey", "oldloc", "oldurl", "oldver", 2⟩]⟩

/-! ## The claims -/

/-- C1: with valid inputs and no query failure the run commits exactly one new
`tenants` row and one new `api_keys` row plus zero or one new/updated
`tenant_secrets` row, and every failing run leaves all three tables exactly as
they were (the inserts are all-or-nothing). -/
theorem claim1_transaction_all_or_nothing (env : Env) (db0 : Db) (u : String)
    (a : Answers)
    (hurl : env.databaseUrl = some u)
    (hcol : collect env.stdin = .ok a)
    (hghl : ghlConsistent a)
    (hnf : noFaults env) :
    ((main env db0).exitCode = 0 ∧
      (main env db0).db.tenants = db0.tenants ++ [TenantRow.mk env.tenantIdGen a.name] ∧
      (main env db0).db.apiKeys = db0.apiKeys ++
        [ApiKeyRow.mk env.tenantIdGen (sha256Hex (genApiKey env.randomBytes)) a.label] ∧
      ((main env db0).db.tenantSecrets = db0.tenantSecrets ∨
        (∃ r, (main env db0).db.tenantSecrets = db0.tenantSecrets ++ [r]) ∨
        (∃ r, (main env db0).db.tenantSecrets =
          db0.tenantSecrets.map (fun x => if x.tenantId == env.tenantIdGen then r else x)))) ∧
    ∀ env2 db2, (main env2 db2).exitCode ≠ 0 → (main env2 db2).db = db2 := by
  refine ⟨?_, fun env2 db2 h => main_fail_frame env2 db2 h⟩
  rcases hghl with ⟨hA, hB⟩ | ⟨hA, hB⟩
  · simp [main, tryMain, hurl, hcol, hA, hB, hnf 0, hnf 1, hnf 2, hnf 3]
  · by_cases hmem : db0.tenantSecrets.any (fun r => r.tenantId == env.tenantIdGen) = true
    · refine ⟨?_, ?_, ?_, Or.inr (Or.inr
        ⟨SecretRow.mk env.tenantIdGen a.ghlApiKey a.ghlLocationId a.ghlBaseUrl a.ghlVersion env.now, ?_⟩)⟩ <;>
        simp [main, tryMain, hurl, hcol, hA, hB, hnf 0, hnf 1, hnf 2, hnf 3, hnf 4,
          upsertSecret, hmem]
    · refine ⟨?_, ?_, ?_, Or.inr (Or.inl
        ⟨SecretRow.mk env.tenantIdGen a.ghlApiKey a.ghlLocationId a.ghlBaseUrl a.ghlVersion env.now, ?_⟩)⟩ <;>
        simp [main, tryMain, hurl, hcol, hA, hB, hnf 0, hnf 1, hnf 2, hnf 3, hnf 4,
          upsertSecret, hmem]

/-- C1 witness: a concrete fault-free run with every default accepted exits 0. -/
theorem claim1_transaction_all_or_nothing_witness :
    collect envOk.stdin = .ok aOk ∧ (main envOk dbEmpty).exitCode = 0 :=
  ⟨rfl,
   (claim1_transaction_all_or_nothing envOk dbEmpty "postgres://db" aOk rfl rfl
      (Or.inl ⟨rfl, rfl⟩) (fun _ => rfl)).1.1⟩

/-- C2: supplying exactly one of the two GHL fields makes the run fail with
the both-or-neither validation error, roll back (no row of any table
persists), and exit 1. -/
theorem claim2_partial_ghl_rolls_back (env : Env) (db0 : Db) (u : String)
    (a : Answers)
    (hurl : env.databaseUrl = some u)
    (hcol : collect env.stdin = .ok a)
    (hone : (a.ghlApiKey = "" ∧ a.ghlLocationId ≠ "") ∨
      (a.ghlApiKey ≠ "" ∧ a.ghlLocationId = ""))
    (hnf : noFaults env) :
    (main env db0).exitCode = 1 ∧
    (main env db0).db = db0 ∧
    (main env db0).errorMsg =
      some "If you provide GHL credentials, you must provide BOTH API key and Location ID." ∧
    (main env db0).rollbackAttempted = true := by
  rcases hone with ⟨hA, hB⟩ | ⟨hA, hB⟩ <;>
    simp [main, tryMain, hurl, hcol, hA, hB, hnf 0, hnf 1, hnf 2, RunErr.message]

/-- C2 witness: a concrete run supplying only the GHL API key fails and
persists nothing. -/
theorem claim2_partial_ghl_rolls_back_witness :
    collect envOneGhl.stdin = .ok aOneGhl ∧
    ((main envOneGhl dbEmpty).exitCode = 1 ∧ (main envOneGhl dbEmpty).db = dbEmpty) :=
  ⟨rfl,
   ⟨(claim2_partial_ghl_rolls_back envOneGhl dbEmpty "postgres://db" aOneGhl rfl rfl
      (Or.inr ⟨by decide, rfl⟩) (fun _ => rfl)).1,
    (claim2_partial_ghl_rolls_back envOneGhl dbEmpty "postgres://db" aOneGhl rfl rfl
      (Or.inr ⟨by decide, rfl⟩) (fun _ => rfl)).2.1⟩⟩

/-- C3 (evaluation): on a failing run the catch handler's `process.exit(1)`
terminates the process before the `finally` block, so the constructed pool is
never ended, contradicting the claim that the pool is closed on every exit
path. -/
theorem claim3_pool_not_ended_on_failure :
    (main envBlankName dbEmpty).exitCode = 1 ∧
    (main envBlankName dbEmpty).poolConstructed = true ∧
    (main envBlankName dbEmpty).poolEnded = false ∧
    (main envBlankName dbEmpty).rollbackAttempted = true := by
  decide

/-- C4: without `DATABASE_URL` the process exits 1 with the error message,
constructs no pool, issues no query, and touches no table. -/
theorem claim4_missing_database_url (env : Env) (db0 : Db)
    (h : env.databaseUrl = none) :
    (main env db0).exitCode = 1 ∧
    (main env db0).poolConstructed = false ∧
    (main env db0).trace = [] ∧
    (main env db0).db = db0 ∧
    (main env db0).errorMsg = some "Missing DATABASE_URL env var" := by
  simp [main, h]

/-- C4 witness: a concrete environment without `DATABASE_URL`. -/
theorem claim4_missing_database_url_witness :
    ({ envOk with databaseUrl := none } : Env).databaseUrl = none ∧
    (main { envOk with databaseUrl := none } dbEmpty).exitCode = 1 :=
  ⟨rfl, (claim4_missing_database_url { envOk with databaseUrl := none } dbEmpty rfl).1⟩

/-- C5: whenever the `try` block throws, the reported message is the original
error's message and the exit code is 1, for every value of the rollback fault
flag; flipping whether the `rollback` query itself fails changes nothing
observable except the recorded rollback outcome (the rollback failure is
swallowed). -/
theorem claim5_rollback_best_effort (env : Env) (db0 : Db) (u : String)
    (tr : List String) (e : RunErr)
    (hurl : env.databaseUrl = some u)
    (htry : tryMain env db0 = (tr, .error e)) :
    (main env db0).errorMsg = some e.message ∧
    (main env db0).exitCode = 1 ∧
    (main env db0).rollbackAttempted = true ∧
    ∀ b, (main { env with rollbackFails := b } db0).errorMsg = some e.message ∧
      (main { env with rollbackFails := b } db0).exitCode = 1 ∧
      (main { env with rollbackFails := b } db0).db = db0 ∧
      (main { env with rollbackFails := b } db0).rollbackSucceeded = !b := by
  have hy := main_error_shape env db0 u tr e hurl htry
  refine ⟨by rw [hy], by rw [hy], by rw [hy], fun b => ?_⟩
  have hx := main_error_shape { env with rollbackFails := b } db0 u tr e hurl
    ((tryMain_rollback_irrel env b db0).trans htry)
  rw [hx]
  exact ⟨rfl, rfl, rfl, rfl⟩

/-- C5 witness: a concrete failing run (blank tenant name) reports the
original validation message. -/
theorem claim5_rollback_best_effort_witness :
    tryMain envBlankName dbEmpty =
      ([], .error (.validation "Tenant name is required.")) ∧
    (main envBlankName dbEmpty).errorMsg = some "Tenant name is required." :=
  ⟨rfl,
   (claim5_rollback_best_effort envBlankName dbEmpty "postgres://db" []
      (.validation "Tenant name is required.") rfl rfl).1⟩

/-- C6: the plaintext secret is the 48-character hexadecimal encoding of the
24 random bytes, it is the reported raw key, and the persisted key hash is
exactly `sha256Hex` of that plaintext (64 hexadecimal characters, 256 bits),
so re-hashing the reported plaintext reproduces the stored hash. -/
theorem claim6_key_and_hash (env : Env) (db0 : Db) (u : String) (a : Answers)
    (hurl : env.databaseUrl = some u)
    (hcol : collect env.stdin = .ok a)
    (hghl : ghlConsistent a)
    (hnf : noFaults env)
    (hlen : env.randomBytes.length = 24) :
    (main env db0).printedRawKey = some (genApiKey env.randomBytes) ∧
    (genApiKey env.randomBytes).length = 48 ∧
    (main env db0).db.apiKeys = db0.apiKeys ++
      [ApiKeyRow.mk env.tenantIdGen (sha256Hex (genApiKey env.randomBytes)) a.label] ∧
    (sha256Hex (genApiKey env.randomBytes)).length = 64 := by
  have hk : (genApiKey env.randomBytes).length = 48 := by rw [genApiKey_length, hlen]
  rcases hghl with ⟨hA, hB⟩ | ⟨hA, hB⟩
  · rw [main_success_noGhl env db0 u a hurl hcol hA hB hnf]
    exact ⟨rfl, hk, rfl, sha256Hex_length _⟩
  · rw [main_success_ghl env db0 u a hurl hcol hA hB hnf]
    exact ⟨rfl, hk, by simp [upsertSecret]; split <;> rfl, sha256Hex_length _⟩

/-- C6 witness: the concrete fault-free run prints the hex encoding of its 24
random bytes. -/
theorem claim6_key_and_hash_witness :
    envOk.randomBytes.length = 24 ∧
    ((main envOk dbEmpty).printedRawKey = some (genApiKey envOk.randomBytes) ∧
      (genApiKey envOk.randomBytes).length = 48) :=
  ⟨rfl,
   ⟨(claim6_key_and_hash envOk dbEmpty "postgres://db" aOk rfl rfl
      (Or.inl ⟨rfl, rfl⟩) (fun _ => rfl) rfl).1,
    (claim6_key_and_hash envOk dbEmpty "postgres://db" aOk rfl rfl
      (Or.inl ⟨rfl, rfl⟩) (fun _ => rfl) rfl).2.1⟩⟩

/-- C7: when both GHL values are supplied and a `tenant_secrets` row for the
tenant id already exists, the upsert overwrites that row wholesale — all four
GHL columns from the new answers and `updated_at` refreshed to the run's
`now()` — while the committed `tenants` and `api_keys` tables keep every
pre-existing row unchanged (the new rows are appended after them). -/
theorem claim7_upsert_overwrites (env : Env) (db0 : Db) (u : String) (a : Answers)
    (hurl : env.databaseUrl = some u)
    (hcol : collect env.stdin = .ok a)
    (hA : a.ghlApiKey ≠ "") (hB : a.ghlLocationId ≠ "")
    (hnf : noFaults env)
    (hmem : db0.tenantSecrets.any (fun r => r.tenantId == env.tenantIdGen) = true) :
    (main env db0).exitCode = 0 ∧
    (main env db0).db.tenantSecrets = db0.tenantSecrets.map
      (fun r => if r.tenantId == env.tenantIdGen then
        SecretRow.mk env.tenantIdGen a.ghlApiKey a.ghlLocationId a.ghlBaseUrl a.ghlVersion env.now
      else r) ∧
    (main env db0).db.tenants = db0.tenants ++ [TenantRow.mk env.tenantIdGen a.name] ∧
    (main env db0).db.apiKeys = db0.apiKeys ++
      [ApiKeyRow.mk env.tenantIdGen (sha256Hex (genApiKey env.randomBytes)) a.label] := by
  refine ⟨?_, ?_, ?_, ?_⟩ <;>
    simp [main, tryMain, hurl, hcol, hA, hB, hnf 0, hnf 1, hnf 2, hnf 3, hnf 4,
      upsertSecret, hmem]

/-- C7 witness: a concrete re-run against a database that already holds a
secrets row for the generated tenant id overwrites that row. -/
theorem claim7_upsert_overwrites_witness :
    dbWithSecret.tenantSecrets.any (fun r => r.tenantId == envBoth.tenantIdGen) = true ∧
    (main envBoth dbWithSecret).db.tenantSecrets = dbWithSecret.tenantSecrets.map
      (fun r => if r.tenantId == envBoth.tenantIdGen then
        SecretRow.mk envBoth.tenantIdGen aBoth.ghlApiKey aBoth.ghlLocationId
          aBoth.ghlBaseUrl aBoth.ghlVersion envBoth.now
      else r) :=
  ⟨rfl,
   (claim7_upsert_overwrites envBoth dbWithSecret "postgres://db" aBoth rfl rfl
      (by decide) (by decide) (fun _ => rfl) rfl).2.1⟩

/-- C8: the prompt collector reads the six stdin lines in fixed order; a blank
tenant name raises the validation error; a blank label, base URL or version
receives its fixed default; blank GHL key or location id stay blank. -/
theorem claim8_prompt_collector (a0 a1 a2 a3 a4 a5 : String) (rest : List String) :
    (jsTrim a0 = "" →
      collect ([a0, a1, a2, a3, a4, a5] ++ rest) =
        .error (.validation "Tenant name is required.")) ∧
    (jsTrim a0 ≠ "" →
      collect ([a0, a1, a2, a3, a4, a5] ++ rest) =
        .ok (Answers.mk (jsTrim a0)
          (if jsTrim a1 = "" then "primary" else jsTrim a1)
          (jsTrim a2) (jsTrim a3)
          (if jsTrim a4 = "" then "https://services.leadconnectorhq.com" else jsTrim a4)
          (if jsTrim a5 = "" then "2021-07-28" else jsTrim a5))) := by
  constructor <;> intro h <;> simp [collect, ask, h]

/-- C8 witness: concrete answers with a non-blank name and a custom label. -/
theorem claim8_prompt_collector_witness :
    jsTrim "Acme" ≠ "" ∧
    collect (["Acme", "x", "", "", "", ""] ++ []) =
      .ok (Answers.mk (jsTrim "Acme")
        (if jsTrim "x" = "" then "primary" else jsTrim "x")
        (jsTrim "") (jsTrim "")
        (if jsTrim "" = "" then "https://services.leadconnectorhq.com" else jsTrim "")
        (if jsTrim "" = "" then "2021-07-28" else jsTrim "")) :=
  ⟨by decide, (claim8_prompt_collector "Acme" "x" "" "" "" "" []).2 (by decide)⟩

/-- C9: `db()` is lazy and memoized — after any positive number of calls the
module state equals the state left by the first call, the pool has been
constructed exactly once, and every further call returns the identical
instance. -/
theorem claim9_pool_memoized (env : NodeEnv) (n : Nat) (h : 1 ≤ n) :
    dbCalls env n dbModuleInit = (db env dbModuleInit).2 ∧
    (db env (dbCalls env n dbModuleInit)).1 = (db env dbModuleInit).1 ∧
    (dbCalls env n dbModuleInit).constructedCount = 1 := by
  obtain ⟨m, rfl⟩ : ∃ m, n = m + 1 := ⟨n - 1, by omega⟩
  have hstep : dbCalls env (m + 1) dbModuleInit =
      dbCalls env m (DbModuleState.mk (some (db env dbModuleInit).1) 1) := rfl
  rw [hstep, dbCalls_stable]
  exact ⟨rfl, rfl, rfl⟩

/-- C9 witness: two calls on a concrete environment construct once and agree. -/
theorem claim9_pool_memoized_witness :
    1 ≤ 2 ∧
    (dbCalls (NodeEnv.mk (some "postgres://db") (some "production")) 2
        dbModuleInit).constructedCount = 1 :=
  ⟨by decide,
   (claim9_pool_memoized (NodeEnv.mk (some "postgres://db") (some "production")) 2
      (by decide)).2.2⟩

/-- C10: `ask` trims every response, so whitespace-only input behaves exactly
like an empty line — a whitespace-only tenant name is rejected with the
validation error, and whitespace-only label, base URL and version receive
their fixed defaults (and blank GHL answers stay blank). -/
theorem claim10_whitespace_is_blank (w0 w1 w2 w3 w4 w5 nm : String)
    (rest : List String)
    (h0 : w0.data.all jsIsWhitespace = true)
    (h1 : w1.data.all jsIsWhitespace = true)
    (h2 : w2.data.all jsIsWhitespace = true)
    (h3 : w3.data.all jsIsWhitespace = true)
    (h4 : w4.data.all jsIsWhitespace = true)
    (h5 : w5.data.all jsIsWhitespace = true)
    (hnm : jsTrim nm ≠ "") :
    collect ([w0, w1, w2, w3, w4, w5] ++ rest) =
      .error (.validation "Tenant name is required.") ∧
    collect ([w0, w1, w2, w3, w4, w5] ++ rest) =
      collect ["", "", "", "", "", ""] ∧
    collect ([nm, w1, w2, w3, w4, w5] ++ rest) =
      .ok (Answers.mk (jsTrim nm) "primary" "" ""
        "https://services.leadconnectorhq.com" "2021-07-28") ∧
    collect ([nm, w1, w2, w3, w4, w5] ++ rest) =
      collect [nm, "", "", "", "", ""] := by
  have e0 := jsTrim_of_all_whitespace w0 h0
  have e1 := jsTrim_of_all_whitespace w1 h1
  have e2 := jsTrim_of_all_whitespace w2 h2
  have e3 := jsTrim_of_all_whitespace w3 h3
  have e4 := jsTrim_of_all_whitespace w4 h4
  have e5 := jsTrim_of_all_whitespace w5 h5
  have ee : jsTrim "" = "" := rfl
  refine ⟨?_, ?_, ?_, ?_⟩ <;>
    simp [collect, ask, e0, e1, e2, e3, e4, e5, ee, hnm]

/-- C10 witness: whitespace-only lines behave as blank lines. -/
theorem claim10_whitespace_is_blank_witness :
    jsTrim "Acme" ≠ "" ∧
    collect (["  ", " \t ", "  ", "  ", "  ", "  "] ++ []) =
      .error (.validation "Tenant name is required.") :=
  ⟨by decide,
   (claim10_whitespace_is_blank "  " " \t " "  " "  " "  " "  " "Acme" []
      (by decide) (by decide) (by decide) (by decide) (by decide) (by decide)
      (by decide)).1⟩

end GhlMcp
